import Mathlib

/-!
Verification development for the load-testing harness in `benchmark.go`
(repository `bifrost-benchmarks`).  The Go program drives a fixed-rate
HTTP attack against a list of providers, samples the target process's
memory in a background task, classifies per-request drop reasons, and
merges serialized results into a JSON document keyed by lower-cased
provider name.

The embedding below translates the relevant parts of `benchmark.go`
into executable Lean definitions:

* Go machine integers (`int64` request counter, `uint64` RSS byte
  counts, `uint16` status codes) are modelled as `Nat`; none of the
  quantities involved can approach an overflow boundary at attainable
  request counts and memory sizes, so wraparound is immaterial to every
  claim treated here.
* Go `float64` arithmetic on success rates and memory megabytes is
  modelled as exact rational arithmetic (`ℚ`); the claims only concern
  exact values (0, 100, ratios of small integers).
* Go maps (`map[string]int`, `map[string]SerializableResult`,
  `http.Header`) are modelled as association lists with unique-key
  update semantics.
* `log.Fatalf` is modelled as an `Except.error` return carrying the
  data of the formatted message.
* The vegeta attack engine (`vegeta.Metrics`) is a third-party
  dependency whose sources are not part of this repository; its small
  surface used by the harness is modelled from the specification text
  (definitions marked `Modelled from the spec:` below).
-/

namespace BifrostBench

/-! ### Data model (`Provider`, payloads, registry) -/

/-- The JSON payload template built by `initializeProviders`
(`json.Marshal` of a map with `messages[0].content`, `provider`,
`model`).  The Go code stores it as marshalled bytes and the targeter
unmarshals it back; since marshal/unmarshal round-trips these fields,
the payload is embedded structurally. -/
structure Payload where
  content : String
  provider : String
  model : String
deriving Repr, DecidableEq

/-- `Provider` from `benchmark.go`: an API provider to be benchmarked. -/
structure Provider where
  name : String
  endpoint : String
  port : String
  payload : Payload
deriving Repr, DecidableEq

/-- The small payload content string from `initializeProviders`
(the `else` branch of the `bigPayload` test). -/
def smallContent : String :=
  "This is a benchmark request #\x7brequest_index\x7d at #\x7btimestamp\x7d. How are you?"

/-- The big payload content string from `initializeProviders`
(the `bigPayload` branch), concatenated exactly as in the source. -/
def bigContent : String :=
  "This is a benchmark request #\x7brequest_index\x7d at #\x7btimestamp\x7d. " ++
  "Please provide a comprehensive analysis of the following topics: " ++
  "1. Explain the concept of Proxy Gateway in the context of AI, including its architecture, benefits, and use cases. " ++
  "2. Discuss the role of load balancing and request routing in AI proxy gateways. " ++
  "3. Analyze the impact of caching and rate limiting on AI service performance. " ++
  "4. Describe common challenges in implementing AI proxy gateways and potential solutions. " ++
  "5. Compare different AI proxy gateway implementations and their trade-offs. " ++
  "6. What is the difference between a proxy gateway and a reverse proxy? " ++
  "7. What is the difference between a proxy gateway and a load balancer? " ++
  "8. What is the difference between a proxy gateway and a web server? " ++
  "9. What is the difference between a proxy gateway and a CDN? " ++
  "10. What is the difference between a proxy gateway and a firewall? " ++
  "11. What is the difference between a proxy gateway and a VPN? " ++
  "12. What is the difference between a proxy gateway and a WAF? " ++
  "13. What is the difference between a proxy gateway and a DDoS protection service? " ++
  "14. What is the difference between a proxy gateway and a DNS server? " ++
  "15. What is the difference between a proxy gateway and a web application firewall? " ++
  "16. What is the difference between a proxy gateway and a load balancer? " ++
  "17. What is the difference between a proxy gateway and a web server? " ++
  "18. What is the difference between a proxy gateway and a CDN? " ++
  "19. What is the difference between a proxy gateway and a firewall? " ++
  "20. What is the difference between a proxy gateway and a VPN? " ++
  "Please provide detailed explanations with examples and technical details for each point. "

/-- Payload construction in `initializeProviders`: choose the big or
small content template and attach `provider = "openai"` and the model. -/
def mkPayload (bigPayload : Bool) (model : String) : Payload :=
  { content := if bigPayload then bigContent else smallContent
    provider := "openai"
    model := model }

/-- `baseUrl` formatting from `initializeProviders`:
`fmt.Sprintf("http://localhost:%s/%s/chat/completions", port, suffix)`. -/
def baseUrl (port suffix : String) : String :=
  "http://localhost:" ++ port ++ "/" ++ suffix ++ "/chat/completions"

/-- `initializeProviders` from `benchmark.go`.  The environment is a
total map from variable name to value, with `os.Getenv` returning `""`
for unset variables, exactly as in Go.  `envFile = none` models
`godotenv.Load` failing (no loadable `.env` file), which the source
turns into `log.Fatalf` — the only fatal branch of the function; with a
loaded environment the provider list is built unconditionally from
whatever `os.Getenv` returns (the source performs no presence check on
individual values). -/
def initializeProviders (envFile : Option (String → String)) (bigPayload : Bool)
    (model suffix : String) : Except String (List Provider) :=
  match envFile with
  | none => Except.error "Error loading .env file"
  | some env =>
    let payload := mkPayload bigPayload model
    Except.ok
      [ { name := "Bifrost"
          endpoint := baseUrl (env "BIFROST_PORT") suffix
          port := env "BIFROST_PORT"
          payload := payload }
      , { name := "Litellm"
          endpoint := baseUrl (env "LITELLM_PORT") suffix
          port := env "LITELLM_PORT"
          payload := payload }
      , { name := "Helicone"
          endpoint := baseUrl (env "HELICONE_PORT") suffix
          port := env "HELICONE_PORT"
          payload := payload } ]

/-- `strings.ToLower` on the ASCII provider names handled by the
harness: lower-case each character. -/
def toLowerStr (s : String) : String :=
  String.mk (s.data.map Char.toLower)

/-- `getProviderNames` from `benchmark.go`: the lower-cased names. -/
def getProviderNames (providers : List Provider) : List String :=
  providers.map (fun p => toLowerStr p.name)

/-- `strings.EqualFold` as used on ASCII provider names: case-insensitive
equality via lower-casing both sides. -/
def eqFold (a b : String) : Bool :=
  toLowerStr a == toLowerStr b

/-- The provider filter loop in `main`: append the first
case-insensitive match and `break`. -/
def firstMatch (providers : List Provider) (name : String) : List Provider :=
  match providers with
  | [] => []
  | p :: rest => if eqFold p.name name then [p] else firstMatch rest name

/-- The provider-filter step of `main`: with an empty `-provider` flag
all providers run; otherwise the filtered list must be non-empty or the
program dies with `log.Fatalf("Provider '%s' not found. Available
providers: %v", provider, getProviderNames(providers))`, modelled as an
error carrying the requested name and the enumerated valid names. -/
def filterProviders (providers : List Provider) (name : String) :
    Except (String × List String) (List Provider) :=
  if name = "" then Except.ok providers
  else
    let filteredProviders := firstMatch providers name
    if filteredProviders.length = 0 then
      Except.error (name, getProviderNames providers)
    else
      Except.ok filteredProviders

/-! ### Association-list maps (Go `map` / `http.Header` updates) -/

/-- Lookup in a string-keyed association list (first matching key),
the model of Go map indexing. -/
def mapGet {α : Type} : List (String × α) → String → Option α
  | [], _ => none
  | (k', v) :: rest, k => if k' = k then some v else mapGet rest k

/-- Update in a string-keyed association list: Go map assignment
`m[k] = v` (and `http.Header.Set`) replaces the entry for an existing
key and otherwise adds a new one.  (Keys are unique in every list this
development builds, as in a Go map.) -/
def mapSet {α : Type} : List (String × α) → String → α → List (String × α)
  | [], k, v => [(k, v)]
  | (k', v') :: rest, k, v =>
    if k' = k then (k, v) :: rest else (k', v') :: mapSet rest k v

/-! ### Request Targeter (`createTargeter`) -/

/-- `strings.ReplaceAll` on the character sequences of the strings
involved: replace every non-overlapping occurrence of `pattern`
left-to-right.  A Go empty pattern inserts between characters; the
harness only ever replaces the two non-empty placeholder tokens, and
for an empty pattern this model returns the text unchanged. -/
def replaceAll (s pattern replacement : List Char) : List Char :=
  if h : pattern = [] then s
  else
    match s with
    | [] => []
    | c :: rest =>
      if pattern.isPrefixOf (c :: rest) then
        replacement ++ replaceAll (List.drop pattern.length (c :: rest)) pattern replacement
      else
        c :: replaceAll rest pattern replacement
termination_by s.length
decreasing_by
  · simp only [List.length_drop, List.length_cons]
    have hlen : 0 < pattern.length := List.length_pos.mpr h
    omega
  · simp

/-- Placeholder substitution performed by the targeter closure:
`strings.ReplaceAll(text, "#\x7brequest_index\x7d", idx)` followed by
`strings.ReplaceAll(_, "#\x7btimestamp\x7d", now)`. -/
def substitutePlaceholders (text : String) (requestCounter : Nat) (now : String) : String :=
  let step1 := replaceAll text.data "#\x7brequest_index\x7d".data (toString requestCounter).data
  let step2 := replaceAll step1 "#\x7btimestamp\x7d".data now.data
  String.mk step2

/-- The two accesses each invocation of the targeter closure makes to
the shared `requestCounter`, in program order: first the locked
increment (`counterMutex.Lock(); requestCounter++;
counterMutex.Unlock()`), then — after the mutex has been released —
the read of `requestCounter` whose value is formatted into
`#\x7brequest_index\x7d` by `fmt.Sprintf("%d", requestCounter)`.  The
mutex makes each increment atomic, but the later read is a separate
unsynchronized access of the shared variable, so the events of
concurrent calls may interleave arbitrarily, subject only to each
call's increment preceding its own read. -/
inductive CounterEvent where
  | increment (call : Nat)
  | readIndex (call : Nat)
deriving Repr, DecidableEq

/-- Interleaved execution of targeter calls against the shared
counter: an increment event bumps the counter by 1; a read event
substitutes the counter's current value into that call's request.
Returns the final counter value and the substituted
(call, request index) pairs in schedule order. -/
def runSchedule : List CounterEvent → Nat → Nat × List (Nat × Nat)
  | [], c => (c, [])
  | CounterEvent.increment _ :: rest, c => runSchedule rest (c + 1)
  | CounterEvent.readIndex i :: rest, c =>
    let r := runSchedule rest c
    (r.1, (i, c) :: r.2)

/-- Program-order validity of a schedule of `n` concurrent targeter
calls (numbered 1..n): each call performs exactly one increment and
exactly one read, and its increment precedes its read.  Every such
interleaving is an execution the source admits, since only the
increment is under the mutex. -/
def validSchedule (n : Nat) (sched : List CounterEvent) : Bool :=
  sched.length == 2 * n
  && (List.range n).all (fun i =>
      sched.count (CounterEvent.increment (i + 1)) == 1
      && sched.count (CounterEvent.readIndex (i + 1)) == 1
      && decide (sched.findIdx (· == CounterEvent.increment (i + 1))
          < sched.findIdx (· == CounterEvent.readIndex (i + 1))))

/-- The racy interleaving of two concurrent targeter calls: both
locked increments complete before either call performs its unlocked
read. -/
def raceSchedule : List CounterEvent :=
  [CounterEvent.increment 1, CounterEvent.increment 2,
   CounterEvent.readIndex 1, CounterEvent.readIndex 2]

/-- The populated `vegeta.Target` produced by the targeter closure. -/
structure Target where
  method : String
  url : String
  body : Payload
  header : List (String × String)
deriving Repr, DecidableEq

/-- The `x-portkey-config` header value
`fmt.Sprintf("\x7b\"provider\":\"openai\",\"api_key\":\"%s\"\x7d", key)`. -/
def portkeyConfig (key : String) : String :=
  "\x7b\"provider\":\"openai\",\"api_key\":\"" ++ key ++ "\"\x7d"

/-- One invocation of the targeter closure returned by
`createTargeter`: substitute the placeholders in the first message's
content, re-serialize, set method/URL/body and the single
`Content-Type` header, and only for a provider literally named
`"Portkey"` read `OPENAI_API_KEY` — failing that single request if it
is unset — and set the `x-portkey-config` header.  The
`json.Unmarshal` of the payload bytes always succeeds for payloads
built by `initializeProviders` (they are marshalled from a well-formed
map), so the unmarshal-error branch does not appear in the structural
embedding. -/
def makeRequest (p : Provider) (env : String → String) (requestCounter : Nat)
    (now : String) : Except String Target :=
  let text := p.payload.content
  let updatedText := substitutePlaceholders text requestCounter now
  let updatedPayload := { p.payload with content := updatedText }
  let tgt : Target :=
    { method := "POST"
      url := p.endpoint
      body := updatedPayload
      header := [("Content-Type", "application/json")] }
  if p.name = "Portkey" then
    let openaiApiKey := env "OPENAI_API_KEY"
    if openaiApiKey = "" then Except.error "OPENAI_API_KEY is not set"
    else Except.ok { tgt with header := mapSet tgt.header "x-portkey-config" (portkeyConfig openaiApiKey) }
  else Except.ok tgt

/-! ### Attack loop (`runBenchmarks`) -/

/-- One per-request outcome from the attack engine's result channel:
the HTTP status code (`uint16`, 0 when no response was received) and
the transport-error string (`""` when there was none). -/
structure Outcome where
  code : Nat
  error : String
deriving Repr, DecidableEq

/-- A string-keyed counting histogram, the model of
`map[string]int` used for `dropReasons` and `StatusCodes`. -/
abbrev Hist := List (String × Nat)

/-- Go map increment `m[k]++`: bump an existing key's count, or add
the key at count 1. -/
def bump : Hist → String → Hist
  | [], k => [(k, 1)]
  | (k', n) :: rest, k =>
    if k' = k then (k', n + 1) :: rest else (k', n) :: bump rest k

/-- Total number of counted events in a histogram. -/
def histTotal (h : Hist) : Nat :=
  (h.map Prod.snd).sum

/-- The count stored at a key (0 if absent). -/
def histGet : Hist → String → Nat
  | [], _ => 0
  | (k', n) :: rest, k => if k' = k then n else histGet rest k

/-- The drop-reason classification in the attack loop of
`runBenchmarks`: a non-empty transport error is counted under its
error string; otherwise a non-200 status is counted under
`"HTTP <code>"`; otherwise nothing is counted. -/
def trackDrop (dropReasons : Hist) (res : Outcome) : Hist :=
  if res.error ≠ "" then bump dropReasons res.error
  else if res.code ≠ 200 then bump dropReasons ("HTTP " ++ toString res.code)
  else dropReasons

/-- Modelled from the spec: the running aggregate of the external
attack engine (`vegeta.Metrics`), whose sources are not part of this
repository.  Only the fields the harness reads are modelled: the
request count, the success count, and the status-code histogram
(keyed by the decimal status code). -/
structure Metrics where
  requests : Nat
  success : Nat
  statusCodes : Hist
deriving Repr, DecidableEq

/-- Modelled from the spec: `vegeta.Metrics.Add` on one outcome —
count the request, count it as a success exactly when its status code
is 200 (the engine-specific success definition named by the spec), and
bump the status-code histogram. -/
def Metrics.add (m : Metrics) (r : Outcome) : Metrics :=
  { requests := m.requests + 1
    success := m.success + (if r.code = 200 then 1 else 0)
    statusCodes := bump m.statusCodes (toString r.code) }

/-- Finalized metrics after `vegeta.Metrics.Close`. -/
structure ClosedMetrics where
  requests : Nat
  successRatio : ℚ
  statusCodes : Hist
deriving Repr, DecidableEq

/-- Modelled from the spec: `vegeta.Metrics.Close` — the closing
percentile computation; the field the harness persists is the success
ratio `success / requests` (0 for an empty run). -/
def Metrics.close (m : Metrics) : ClosedMetrics :=
  { requests := m.requests
    successRatio := if m.requests = 0 then 0 else (m.success : ℚ) / (m.requests : ℚ)
    statusCodes := m.statusCodes }

/-- The empty running aggregate (`var metrics vegeta.Metrics`). -/
def Metrics.empty : Metrics :=
  { requests := 0, success := 0, statusCodes := [] }

/-- Result of the attack-consumption loop. -/
structure LoopResult where
  metrics : Metrics
  dropReasons : Hist
  consumed : List Outcome
  timedOut : Bool
deriving Repr, DecidableEq

/-- The attack loop of `runBenchmarks`: `for res := range
attacker.Attack(...)` adds each outcome to the metrics, classifies its
drop reason, and then polls the 240-second context with a
non-blocking `select`; when the context has expired it logs, bumps
`dropReasons["context_timeout"]` once, and jumps out of the loop
(`goto EndAttack`), leaving the rest of the channel unconsumed.

The engine's outcome channel is modelled as the finite list
`outcomes` (the engine closes the channel after the attack duration);
the wall-clock context is modelled by `ctxBudget`: `some k` means the
context deadline expires during the processing of outcome `k` (so the
poll that follows the `(k+1)`-st processed outcome is the first to
observe it), while `none` means the deadline never expires while the
channel is live. -/
def attackLoop : List Outcome → Option Nat → Metrics → Hist → LoopResult
  | [], _, m, d => { metrics := m, dropReasons := d, consumed := [], timedOut := false }
  | r :: rest, budget, m, d =>
    let m' := m.add r
    let d' := trackDrop d r
    match budget with
    | some 0 =>
      { metrics := m'
        dropReasons := bump d' "context_timeout"
        consumed := [r]
        timedOut := true }
    | some (k + 1) =>
      let rec' := attackLoop rest (some k) m' d'
      { rec' with consumed := r :: rec'.consumed }
    | none =>
      let rec' := attackLoop rest none m' d'
      { rec' with consumed := r :: rec'.consumed }

/-! ### Process Memory Sampler -/

/-- `ServerMemStat` from `benchmark.go` (timestamps as opaque strings,
byte counts as `Nat`, the percentage as `ℚ`). -/
structure ServerMemStat where
  timestamp : String
  rss : Nat
  vms : Nat
  memPercent : ℚ
deriving Repr, DecidableEq

/-- `monitorServerMemory`: at each tick, a memory reading either
succeeds (`some stat`) and is appended under the mutex, or fails
transiently (`none`) and that tick is skipped. -/
def monitorServerMemory (readings : List (Option ServerMemStat)) : List ServerMemStat :=
  readings.filterMap id

/-- The sampler goroutine body in `runBenchmarks`: if
`getProcessByPort` finds no process (`proc = none`), it logs a warning
and returns without sampling, leaving the sample sequence empty;
otherwise it runs `monitorServerMemory` until the stop signal. -/
def samplerTask (proc : Option Unit) (readings : List (Option ServerMemStat)) :
    List ServerMemStat :=
  match proc with
  | none => []
  | some _ => monitorServerMemory readings

/-! ### Per-provider orchestration and serialization -/

/-- `BenchmarkResult` from `benchmark.go`, with the metrics already
closed (`metrics.Close()` runs at `EndAttack` before the result is
appended). -/
structure BenchmarkResult where
  providerName : String
  metrics : ClosedMetrics
  serverMemoryStats : List ServerMemStat
  dropReasons : Hist
deriving Repr, DecidableEq

/-- One iteration of the provider loop in `runBenchmarks`: run the
sampler goroutine against the discovered process, drain the attack
loop from empty accumulators, close the metrics, and package the
result.  The join on the sampler (`close(stopMonitoring); wg.Wait()`)
and the locked copy of the sample buffer are reflected in the sample
list being fully formed before it is stored. -/
def runProvider (provider : Provider) (outcomes : List Outcome) (ctxBudget : Option Nat)
    (proc : Option Unit) (readings : List (Option ServerMemStat)) : BenchmarkResult :=
  let serverMemStats := samplerTask proc readings
  let r := attackLoop outcomes ctxBudget Metrics.empty []
  { providerName := provider.name
    metrics := r.metrics.close
    serverMemoryStats := serverMemStats
    dropReasons := r.dropReasons }

/-- Peak RSS over the sample sequence, as in `saveResults`
(`if stat.RSS > peakMem`); 0 for an empty sequence. -/
def peakRSS (stats : List ServerMemStat) : Nat :=
  stats.foldl (fun peakMem stat => if stat.rss > peakMem then stat.rss else peakMem) 0

/-- Total RSS over the sample sequence (`totalMem += stat.RSS`). -/
def totalRSS (stats : List ServerMemStat) : Nat :=
  (stats.map (fun stat => stat.rss)).sum

/-- `SerializableResult` from `saveResults`.  The latency, rate and
throughput fields are float aggregates computed inside the external
engine's `Close` and are not touched by any claim; they are omitted
from the embedding.  The `dropReasons` field is declared with JSON tag
`"drop_reasons"` but its assignment in `saveResults` is commented out,
so the zero value (a nil map, marshalled as `null`) is always written;
it is modelled as an `Option Hist`. -/
structure SerializableResult where
  requests : Nat
  successRate : ℚ
  timestamp : String
  statusCodeCounts : Hist
  serverPeakMemoryMB : ℚ
  serverAvgMemoryMB : ℚ
  dropReasons : Option Hist
deriving Repr, DecidableEq

/-- The per-result serialization step of `saveResults`: status-code
histogram copied over, `success_rate = 100.0 * metrics.Success`, peak
and average RSS converted to megabytes (average 0 when no samples),
current time recorded, and the drop-reasons assignment left commented
out (hence `none`). -/
def serializeResult (now : String) (res : BenchmarkResult) : SerializableResult :=
  let peakMem := peakRSS res.serverMemoryStats
  let avgMem : ℚ :=
    if res.serverMemoryStats.length > 0 then
      (totalRSS res.serverMemoryStats : ℚ) / (res.serverMemoryStats.length : ℚ) / (1024 * 1024)
    else 0
  { requests := res.metrics.requests
    successRate := 100 * res.metrics.successRatio
    timestamp := now
    statusCodeCounts := res.metrics.statusCodes
    serverPeakMemoryMB := (peakMem : ℚ) / (1024 * 1024)
    serverAvgMemoryMB := avgMem
    dropReasons := none }

/-- The persisted results document: a Go `map[string]SerializableResult`. -/
abbrev ResultsMap := List (String × SerializableResult)

/-- The merge loop of `saveResults`: starting from the parsed prior
document, write each new result at its lower-cased provider-name key. -/
def mergeResults (prior : ResultsMap) (results : List BenchmarkResult)
    (now : String) : ResultsMap :=
  results.foldl
    (fun acc res => mapSet acc (toLowerStr res.providerName) (serializeResult now res)) prior

/-- `saveResults` up to the final write: a missing or unparseable
prior file (`prior = none`) starts from an empty map with a warning;
otherwise the parsed map is merged with the new results. -/
def saveResults (prior : Option ResultsMap) (results : List BenchmarkResult)
    (now : String) : ResultsMap :=
  let resultsMap := match prior with
    | some m => m
    | none => []
  mergeResults resultsMap results now

/-- The file states observable at the output path if the process dies
during the final `os.WriteFile(outputFile, jsonData, 0644)` call of
`saveResults`.  `os.WriteFile` opens the file with truncation and then
writes the bytes sequentially in place (no temporary file, no rename),
so an interruption can leave the old contents (failure before the
open), or the first `k` characters of the new contents for any `k`
(failure after truncation, mid-write); the last listed state is the
completed write.  File contents are modelled as character lists. -/
def writeFileStates (old jsonData : List Char) : List (List Char) :=
  old :: (List.range (jsonData.length + 1)).map (fun k => jsonData.take k)

/-! ### Derived observations used to state the claims -/

/-- The prefix of the outcome channel the attack loop consumes: with a
live context (`none`) the whole channel; with a context expiring
during outcome `k` the loop consumes `k + 1` outcomes and breaks. -/
def ctxTake (l : List Outcome) : Option Nat → List Outcome
  | none => l
  | some k => l.take (k + 1)

/-- Whether the forced context timeout fires: it does exactly when the
context expires while the channel is still delivering outcomes. -/
def ctxTimedOut (l : List Outcome) : Option Nat → Bool
  | none => false
  | some k => decide (k + 1 ≤ l.length)

/-- Per-outcome contribution to the drop-reason histogram total. -/
def dropWeight (r : Outcome) : Nat :=
  if r.error ≠ "" then 1 else if r.code ≠ 200 then 1 else 0

/-- Number of consumed outcomes with a non-200 status code (`K`). -/
def countK (l : List Outcome) : Nat :=
  l.countP (fun r => r.code != 200)

/-- Number of consumed outcomes with a non-empty transport-error
string (`M`). -/
def countM (l : List Outcome) : Nat :=
  l.countP (fun r => r.error != "")

/-- The claim's stipulation that the non-200 outcomes and the
transport-error outcomes are disjoint classes. -/
def disjointKM (l : List Outcome) : Bool :=
  l.all (fun r => !(r.code != 200 && r.error != ""))

/-! ### Sample data shared by concrete instantiations -/

/-- A fully populated sample environment. -/
def sampleEnv : String → String := fun _ => "8080"

/-- The registry list obtained from the sample environment. -/
def sampleProviders : List Provider :=
  (initializeProviders (some sampleEnv) false "gpt-4o-mini" "v1").toOption.getD []

/-- The Bifrost entry of the sample registry. -/
def sampleProvider : Provider :=
  { name := "Bifrost"
    endpoint := baseUrl "8080" "v1"
    port := "8080"
    payload := mkPayload false "gpt-4o-mini" }

/-- An environment in which `BIFROST_PORT` is absent (`os.Getenv`
returns the empty string for it) while the other ports are present. -/
def envMissingBifrost : String → String :=
  fun k => if k = "LITELLM_PORT" then "4000" else if k = "HELICONE_PORT" then "4001" else ""

/-- A sample serialized entry for the `"litellm"` key of a prior
results document. -/
def litellmPrior : SerializableResult :=
  { requests := 10
    successRate := 100
    timestamp := "2025-01-01T00:00:00Z"
    statusCodeCounts := [("200", 10)]
    serverPeakMemoryMB := 1
    serverAvgMemoryMB := 1
    dropReasons := none }

/-- A sample benchmark result for provider `"Bifrost"`. -/
def bifrostRun : BenchmarkResult :=
  { providerName := "Bifrost"
    metrics := { requests := 5, successRatio := 1, statusCodes := [("200", 5)] }
    serverMemoryStats := []
    dropReasons := [] }

/-! ### Helper lemmas: histograms -/

theorem histTotal_bump (h : Hist) (k : String) :
    histTotal (bump h k) = histTotal h + 1 := by
  induction h with
  | nil => rfl
  | cons p rest ih =>
    obtain ⟨k', n⟩ := p
    by_cases hk : k' = k <;> simp [bump, hk, histTotal] at ih ⊢ <;> omega

theorem histGet_bump_self (h : Hist) (k : String) :
    histGet (bump h k) k = histGet h k + 1 := by
  induction h with
  | nil => simp [bump, histGet]
  | cons p rest ih =>
    obtain ⟨k', n⟩ := p
    by_cases hk : k' = k <;> simp [bump, hk, histGet, ih]

theorem histTotal_trackDrop (d : Hist) (r : Outcome) :
    histTotal (trackDrop d r) = histTotal d + dropWeight r := by
  unfold trackDrop dropWeight
  by_cases he : r.error = "" <;> by_cases hc : r.code = 200 <;>
    simp [he, hc, histTotal_bump]

theorem histTotal_foldl_trackDrop (l : List Outcome) (d : Hist) :
    histTotal (l.foldl trackDrop d) = histTotal d + (l.map dropWeight).sum := by
  induction l generalizing d with
  | nil => simp
  | cons r rest ih => simp [ih, histTotal_trackDrop]; omega

theorem sum_dropWeight_of_disjoint (l : List Outcome)
    (hd : disjointKM l = true) :
    (l.map dropWeight).sum = countK l + countM l := by
  induction l with
  | nil => rfl
  | cons r rest ih =>
    rw [disjointKM, List.all_cons, Bool.and_eq_true] at hd
    obtain ⟨hr, hrest⟩ := hd
    have ihr := ih hrest
    simp only [List.map_cons, List.sum_cons, countK, countM, List.countP_cons, ihr]
    by_cases he : r.error = ""
    · by_cases hc : r.code = 200 <;>
        simp [dropWeight, countK, countM, he, hc] <;> omega
    · have hc : r.code = 200 := by
        by_contra hc
        simp [hc, he] at hr
      simp [dropWeight, countK, countM, he, hc]
      omega

/-! ### Helper lemmas: the attack loop -/

/-- Structural characterization of `attackLoop`: it folds the metrics
and the drop classifier over exactly the consumed prefix of the
channel, bumps `context_timeout` exactly when the context expired
while outcomes were still arriving, and reports that prefix and
flag. -/
theorem attackLoop_eq (l : List Outcome) (budget : Option Nat) (m : Metrics) (d : Hist) :
    attackLoop l budget m d =
      { metrics := (ctxTake l budget).foldl Metrics.add m
        dropReasons :=
          if ctxTimedOut l budget then
            bump ((ctxTake l budget).foldl trackDrop d) "context_timeout"
          else (ctxTake l budget).foldl trackDrop d
        consumed := ctxTake l budget
        timedOut := ctxTimedOut l budget } := by
  induction l generalizing budget m d with
  | nil =>
    cases budget <;> simp [attackLoop, ctxTake, ctxTimedOut]
  | cons r rest ih =>
    cases budget with
    | none => simp [attackLoop, ctxTake, ctxTimedOut, ih]
    | some k =>
      cases k with
      | zero => simp [attackLoop, ctxTake, ctxTimedOut, List.take_succ_cons]
      | succ k =>
        simp only [attackLoop, ctxTake, ctxTimedOut, ih, List.take_succ_cons,
          List.foldl_cons, List.length_cons]
        have hiff : k + 1 + 1 ≤ rest.length + 1 ↔ k + 1 ≤ rest.length := by omega
        simp [hiff]

theorem foldl_add_requests (l : List Outcome) (m : Metrics) :
    (l.foldl Metrics.add m).requests = m.requests + l.length := by
  induction l generalizing m with
  | nil => simp
  | cons r rest ih =>
    simp only [List.foldl_cons, ih, Metrics.add, List.length_cons]
    omega

theorem foldl_add_success (l : List Outcome) (m : Metrics) :
    (l.foldl Metrics.add m).success = m.success + l.countP (fun r => r.code == 200) := by
  induction l generalizing m with
  | nil => simp
  | cons r rest ih =>
    simp only [List.foldl_cons, ih, Metrics.add, List.countP_cons]
    by_cases h : r.code = 200 <;> simp [h] <;> omega

theorem countP_success_add_countK (l : List Outcome) :
    l.countP (fun r => r.code == 200) + countK l = l.length := by
  induction l with
  | nil => rfl
  | cons r rest ih =>
    simp only [List.countP_cons, countK, List.length_cons] at ih ⊢
    by_cases h : r.code = 200 <;> simp [h] <;> omega

theorem countK_le_length (l : List Outcome) : countK l ≤ l.length :=
  List.countP_le_length _

/-! ### Claim theorems (first group) -/

/-- C3: the claimed distinctness fails on the code.  The value
formatted into `#\x7brequest_index\x7d` is re-read from
`requestCounter` after `counterMutex.Unlock()`, so only the increments
are serialized.  `raceSchedule` — both locked increments complete
before either unlocked read — is a program-order-valid interleaving of
two concurrent calls; executing it from counter 0 substitutes index 2
into both requests (a duplicate) and index 1 into neither (a skip),
while the final counter is still 2 (the increments themselves are not
lost).  This contradicts the claim as well as the source's own
"round-robin" comment; the spec's intended behavior requires capturing
the incremented value while the lock is held. -/
theorem claim_C3_counter_race :
    validSchedule 2 raceSchedule = true
    ∧ (runSchedule raceSchedule 0).2 = [(1, 2), (2, 2)]
    ∧ ¬((runSchedule raceSchedule 0).2.map Prod.snd).Nodup
    ∧ 1 ∉ (runSchedule raceSchedule 0).2.map Prod.snd
    ∧ (runSchedule raceSchedule 0).1 = 2 := by
  decide

/-- C5 counterexample: with a loaded environment file in which
`BIFROST_PORT` is absent, `initializeProviders` does not terminate
fatally; it returns the full provider list with the missing port
embedded as the empty string (and a malformed endpoint built from
it). -/
theorem claim_C5_counterexample :
    initializeProviders (some envMissingBifrost) false "gpt-4o-mini" "v1"
      = Except.ok
        [ { name := "Bifrost"
            endpoint := baseUrl "" "v1"
            port := ""
            payload := mkPayload false "gpt-4o-mini" }
        , { name := "Litellm"
            endpoint := baseUrl "4000" "v1"
            port := "4000"
            payload := mkPayload false "gpt-4o-mini" }
        , { name := "Helicone"
            endpoint := baseUrl "4001" "v1"
            port := "4001"
            payload := mkPayload false "gpt-4o-mini" } ] := by
  rfl

/-- C5 amended: the Provider Registry terminates fatally only when the
environment file itself cannot be loaded; an absent individual
environment value is not detected — for every environment the registry
returns the full three-provider list, with each missing value embedded
as the empty string in the port (and endpoint) of the corresponding
provider. -/
theorem claim_C5_registry_env (env : String → String) (big : Bool) (model suffix : String) :
    initializeProviders none big model suffix = Except.error "Error loading .env file"
    ∧ ∃ l, initializeProviders (some env) big model suffix = Except.ok l
        ∧ l.map Provider.name = ["Bifrost", "Litellm", "Helicone"]
        ∧ l.map Provider.port = [env "BIFROST_PORT", env "LITELLM_PORT", env "HELICONE_PORT"] := by
  refine ⟨rfl, (initializeProviders (some env) big model suffix).toOption.getD [], ?_, ?_, ?_⟩ <;> rfl

/-- C7: if the memory sampler discovers no process on the provider's
port (`proc = none`), the run still completes: the sampler terminates
without sampling, the memory-sample sequence of the produced result is
empty, and the serialized result has `server_peak_memory_mb = 0` and
`server_avg_memory_mb = 0`. -/
theorem claim_C7_sampler_no_process (p : Provider) (outcomes : List Outcome)
    (budget : Option Nat) (readings : List (Option ServerMemStat)) (now : String) :
    (runProvider p outcomes budget none readings).serverMemoryStats = []
    ∧ (serializeResult now (runProvider p outcomes budget none readings)).serverPeakMemoryMB = 0
    ∧ (serializeResult now (runProvider p outcomes budget none readings)).serverAvgMemoryMB = 0 := by
  have hmem : (runProvider p outcomes budget none readings).serverMemoryStats = [] := rfl
  refine ⟨hmem, ?_, ?_⟩ <;>
    simp [serializeResult, hmem, peakRSS, totalRSS]

/-- C8 counterexample: the final write of `saveResults` is a plain
truncating `os.WriteFile`, not write-then-rename: with prior contents
`"x"` and new contents `"ab"`, a mid-write failure can leave the file
empty, or holding `"a"` — neither the old contents nor the complete
new contents. -/
theorem claim_C8_counterexample :
    (['x'] ∈ writeFileStates ['x'] ['a', 'b']
      ∧ [] ∈ writeFileStates ['x'] ['a', 'b']
      ∧ ['a'] ∈ writeFileStates ['x'] ['a', 'b'])
    ∧ ([] : List Char) ≠ ['x'] ∧ ([] : List Char) ≠ ['a', 'b']
    ∧ ['a'] ≠ ['x'] ∧ ['a'] ≠ ['a', 'b'] := by
  decide

/-- C8 amended: `saveResults` writes the serialized document with a
single truncating write (no temporary file or rename): a mid-write
failure can leave the file either with the old contents or truncated
to any prefix of the new contents; only the completed final state
holds the complete new contents. -/
theorem claim_C8_write_states (old jsonData : List Char) :
    (writeFileStates old jsonData).getLast? = some jsonData
    ∧ ∀ s ∈ writeFileStates old jsonData, s = old ∨ ∃ k, s = jsonData.take k := by
  constructor
  · rw [writeFileStates, List.range_succ, List.map_append]
    simp only [List.map_cons, List.map_nil, List.take_length]
    rw [show old :: (List.map (fun k => List.take k jsonData) (List.range jsonData.length) ++ [jsonData])
        = (old :: List.map (fun k => List.take k jsonData) (List.range jsonData.length)) ++ [jsonData]
      from rfl]
    exact List.getLast?_concat _
  · intro s hs
    rw [writeFileStates, List.mem_cons] at hs
    rcases hs with hs | hs
    · exact Or.inl hs
    · right
      obtain ⟨k, _, hk⟩ := List.mem_map.mp hs
      exact ⟨k, hk.symm⟩

/-- C8 witness for the amended statement at concrete contents. -/
theorem claim_C8_write_states_witness :
    (writeFileStates ['x'] ['a', 'b']).getLast? = some ['a', 'b']
    ∧ (['a'] = ['x'] ∨ ∃ k, ['a'] = List.take k ['a', 'b']) :=
  ⟨(claim_C8_write_states ['x'] ['a', 'b']).1,
   (claim_C8_write_states ['x'] ['a', 'b']).2 ['a'] (by decide)⟩

/-- C10: the drop-reason histogram accumulated during the run is never
persisted: for every benchmark result — however non-empty its
in-memory `DropReasons` map — the serialized entry's `drop_reasons`
field is the nil value (`null` in the written JSON), because its
assignment in `saveResults` is commented out. -/
theorem claim_C10_drop_reasons_not_persisted (now : String) (res : BenchmarkResult) :
    (serializeResult now res).dropReasons = none := rfl

/-! ### Claim theorems: attack-loop accounting (C1, C6) -/

/-- C1 counterexample: one consumed outcome with status 200 and a
non-empty transport-error string satisfies the claim's stipulations
(`K = 0`, `M = 1`, `K` and `M` disjoint, no forced timeout) and the
histogram-total part (`K + M = 1`), but the persisted `success_rate`
is 100 — the outcome has status 200, hence counts as a success under
the success-iff-200 definition — whereas the claimed formula
`(N − K − M)/N × 100` yields 0. -/
theorem claim_C1_counterexample :
    disjointKM [{ code := 200, error := "connection refused" }] = true
    ∧ countK [{ code := 200, error := "connection refused" }] = 0
    ∧ countM [{ code := 200, error := "connection refused" }] = 1
    ∧ ctxTimedOut [{ code := 200, error := "connection refused" }] none = false
    ∧ histTotal (runProvider sampleProvider
        [{ code := 200, error := "connection refused" }] none (some ()) []).dropReasons = 1
    ∧ (serializeResult "2025-01-01T00:00:00Z" (runProvider sampleProvider
        [{ code := 200, error := "connection refused" }] none (some ()) [])).successRate = 100
    ∧ ((1 : ℚ) - 0 - 1) / 1 * 100 = 0
    ∧ (100 : ℚ) ≠ 0 := by
  refine ⟨by decide, by decide, by decide, by decide, by decide, ?_, by norm_num, by norm_num⟩
  show 100 * (Metrics.close _).successRatio = 100
  norm_num [attackLoop, Metrics.add, Metrics.empty, Metrics.close, trackDrop, bump]

/-- C1 amended: for any sequence of outcomes consumed by the attack
loop (the prefix `ctxTake outcomes budget` of the channel), with `K`
consumed outcomes of non-200 status and `M` of non-empty transport
error, `K` and `M` disjoint, the drop-reason histogram's total equals
`K + M` plus 1 if the forced timeout fired — transport errors keyed by
their error string, non-200 statuses keyed by `"HTTP <code>"` — and
the persisted `success_rate` equals `(N − K)/N × 100` under the
success-iff-200 definition (the `M` transport-error outcomes carry
status 200 by the disjointness stipulation, so they count as
successes; only the `K` non-200 outcomes reduce the rate). -/
theorem claim_C1_attack_accounting (p : Provider) (outcomes : List Outcome)
    (budget : Option Nat) (proc : Option Unit)
    (readings : List (Option ServerMemStat)) (now : String)
    (hdisj : disjointKM (ctxTake outcomes budget) = true)
    (hN : 0 < (ctxTake outcomes budget).length) :
    histTotal (runProvider p outcomes budget proc readings).dropReasons
      = countK (ctxTake outcomes budget) + countM (ctxTake outcomes budget)
        + (if ctxTimedOut outcomes budget then 1 else 0)
    ∧ (serializeResult now (runProvider p outcomes budget proc readings)).successRate
      = (((ctxTake outcomes budget).length : ℚ) - (countK (ctxTake outcomes budget) : ℚ))
          / ((ctxTake outcomes budget).length : ℚ) * 100 := by
  have hloop := attackLoop_eq outcomes budget Metrics.empty []
  constructor
  · show histTotal (attackLoop outcomes budget Metrics.empty []).dropReasons = _
    rw [hloop]
    by_cases ht : ctxTimedOut outcomes budget
    · rw [if_pos ht, if_pos ht, histTotal_bump, histTotal_foldl_trackDrop,
        sum_dropWeight_of_disjoint _ hdisj]
      simp [histTotal]
    · rw [if_neg ht, if_neg ht, histTotal_foldl_trackDrop,
        sum_dropWeight_of_disjoint _ hdisj]
      simp [histTotal]
  · have hreq : ((ctxTake outcomes budget).foldl Metrics.add Metrics.empty).requests
        = (ctxTake outcomes budget).length := by
      rw [foldl_add_requests]; simp [Metrics.empty]
    have hsucc : ((ctxTake outcomes budget).foldl Metrics.add Metrics.empty).success
        = (ctxTake outcomes budget).length - countK (ctxTake outcomes budget) := by
      rw [foldl_add_success]
      have := countP_success_add_countK (ctxTake outcomes budget)
      simp only [Metrics.empty]
      omega
    show 100 * (Metrics.close (attackLoop outcomes budget Metrics.empty []).metrics).successRatio = _
    rw [hloop]
    simp only [Metrics.close, hreq, hsucc]
    rw [if_neg (by omega)]
    rw [Nat.cast_sub (countK_le_length _)]
    have hne : ((ctxTake outcomes budget).length : ℚ) ≠ 0 := by
      exact_mod_cast Nat.pos_iff_ne_zero.mp hN
    field_simp
    ring

/-- C1 witness: two consumed outcomes, one `HTTP 500`, no transport
errors, no timeout — histogram total 1, success rate 50%. -/
theorem claim_C1_attack_accounting_witness :
    histTotal (runProvider sampleProvider
        [{ code := 200, error := "" }, { code := 500, error := "" }] none none []).dropReasons
      = countK (ctxTake [{ code := 200, error := "" }, { code := 500, error := "" }] none)
        + countM (ctxTake [{ code := 200, error := "" }, { code := 500, error := "" }] none)
        + (if ctxTimedOut [{ code := 200, error := "" }, { code := 500, error := "" }] none
           then 1 else 0)
    ∧ (serializeResult "2025-01-01T00:00:00Z" (runProvider sampleProvider
        [{ code := 200, error := "" }, { code := 500, error := "" }] none none [])).successRate
      = (((ctxTake [{ code := 200, error := "" }, { code := 500, error := "" }] none).length : ℚ)
          - (countK (ctxTake [{ code := 200, error := "" }, { code := 500, error := "" }] none) : ℚ))
          / ((ctxTake [{ code := 200, error := "" }, { code := 500, error := "" }] none).length : ℚ)
          * 100 :=
  claim_C1_attack_accounting sampleProvider
    [{ code := 200, error := "" }, { code := 500, error := "" }] none none []
    "2025-01-01T00:00:00Z" (by decide) (by decide)

/-- C6: when the wall-clock context expires while outcomes are still
arriving (`k + 1 ≤ outcomes.length`), the attack loop consumes exactly
the first `k + 1` outcomes and stops, reports the forced timeout,
increments the histogram at key `"context_timeout"` exactly once
relative to the classification of the consumed prefix, and the
per-provider run still finalizes its metrics (`Metrics.close` of the
aggregate over the consumed prefix) — the loop is a total function of
the consumed prefix, never blocking indefinitely. -/
theorem claim_C6_timeout_stops_loop (p : Provider) (outcomes : List Outcome) (k : Nat)
    (proc : Option Unit) (readings : List (Option ServerMemStat))
    (hk : k + 1 ≤ outcomes.length) :
    (attackLoop outcomes (some k) Metrics.empty []).consumed = outcomes.take (k + 1)
    ∧ (attackLoop outcomes (some k) Metrics.empty []).timedOut = true
    ∧ histGet (attackLoop outcomes (some k) Metrics.empty []).dropReasons "context_timeout"
        = histGet ((outcomes.take (k + 1)).foldl trackDrop []) "context_timeout" + 1
    ∧ (runProvider p outcomes (some k) proc readings).metrics
        = ((outcomes.take (k + 1)).foldl Metrics.add Metrics.empty).close := by
  have ht : ctxTimedOut outcomes (some k) = true := by
    simp [ctxTimedOut, hk]
  have hloop := attackLoop_eq outcomes (some k) Metrics.empty []
  refine ⟨?_, ?_, ?_, ?_⟩
  · rw [hloop]; rfl
  · rw [hloop]; exact ht
  · rw [hloop]; simp [ht, ctxTake, histGet_bump_self]
  · show Metrics.close (attackLoop outcomes (some k) Metrics.empty []).metrics = _
    rw [hloop]; rfl

/-- C6 witness: three outcomes with the context expiring during the
second. -/
theorem claim_C6_timeout_stops_loop_witness :
    (attackLoop [{ code := 200, error := "" }, { code := 200, error := "" },
        { code := 200, error := "" }] (some 1) Metrics.empty []).consumed
      = List.take 2 [{ code := 200, error := "" }, { code := 200, error := "" },
        { code := 200, error := "" }]
    ∧ (attackLoop [{ code := 200, error := "" }, { code := 200, error := "" },
        { code := 200, error := "" }] (some 1) Metrics.empty []).timedOut = true
    ∧ histGet (attackLoop [{ code := 200, error := "" }, { code := 200, error := "" },
          { code := 200, error := "" }] (some 1) Metrics.empty []).dropReasons "context_timeout"
        = histGet ((List.take 2 [{ code := 200, error := "" }, { code := 200, error := "" },
            { code := 200, error := "" }]).foldl trackDrop []) "context_timeout" + 1
    ∧ (runProvider sampleProvider [{ code := 200, error := "" }, { code := 200, error := "" },
          { code := 200, error := "" }] (some 1) none []).metrics
        = ((List.take 2 [{ code := 200, error := "" }, { code := 200, error := "" },
            { code := 200, error := "" }]).foldl Metrics.add Metrics.empty).close :=
  claim_C6_timeout_stops_loop sampleProvider
    [{ code := 200, error := "" }, { code := 200, error := "" }, { code := 200, error := "" }]
    1 none [] (by decide)

/-! ### Helper lemmas: association-list maps and the merge loop -/

theorem mapGet_mapSet_self {α : Type} (l : List (String × α)) (k : String) (v : α) :
    mapGet (mapSet l k v) k = some v := by
  induction l with
  | nil => simp [mapSet, mapGet]
  | cons p rest ih =>
    obtain ⟨k', v'⟩ := p
    by_cases h : k' = k <;> simp [mapSet, mapGet, h, ih]

theorem mapGet_mapSet_ne {α : Type} (l : List (String × α)) (k k' : String) (v : α)
    (h : k ≠ k') :
    mapGet (mapSet l k v) k' = mapGet l k' := by
  induction l with
  | nil => simp [mapSet, mapGet, h]
  | cons p rest ih =>
    obtain ⟨k0, v0⟩ := p
    by_cases h0 : k0 = k
    · subst h0
      simp [mapSet, mapGet, h]
    · simp only [mapSet, if_neg h0, mapGet]
      by_cases h1 : k0 = k' <;> simp [h1, ih]

theorem mergeResults_frame (prior : ResultsMap) (results : List BenchmarkResult)
    (now : String) (k : String)
    (hk : k ∉ results.map (fun r => toLowerStr r.providerName)) :
    mapGet (mergeResults prior results now) k = mapGet prior k := by
  induction results generalizing prior with
  | nil => rfl
  | cons r rest ih =>
    simp only [List.map_cons, List.mem_cons, not_or] at hk
    have hstep : mergeResults prior (r :: rest) now
        = mergeResults (mapSet prior (toLowerStr r.providerName) (serializeResult now r))
            rest now := rfl
    rw [hstep, ih _ (by simpa using hk.2),
      mapGet_mapSet_ne _ _ _ _ (Ne.symm hk.1)]

theorem mergeResults_update (prior : ResultsMap) (results : List BenchmarkResult)
    (now : String)
    (hnd : (results.map (fun r => toLowerStr r.providerName)).Nodup) :
    ∀ r ∈ results, mapGet (mergeResults prior results now) (toLowerStr r.providerName)
      = some (serializeResult now r) := by
  induction results generalizing prior with
  | nil => intro r hr; simp at hr
  | cons a rest ih =>
    intro r hr
    rw [List.map_cons, List.nodup_cons] at hnd
    obtain ⟨hna, hnd'⟩ := hnd
    have hstep : mergeResults prior (a :: rest) now
        = mergeResults (mapSet prior (toLowerStr a.providerName) (serializeResult now a))
            rest now := rfl
    rcases List.mem_cons.mp hr with h | h
    · subst h
      rw [hstep, mergeResults_frame _ _ _ _ hna, mapGet_mapSet_self]
    · rw [hstep]
      exact ih _ hnd' r h

/-! ### Claim theorems: results merging (C2) -/

/-- C2: `saveResults` is a selective overlay.  For every prior results
document, every list of new results whose lower-cased provider names
are distinct (as they are for any subset of the registry), and every
key not among the lower-cased names of the new results: the prior
entry at that key appears unchanged in the merged document, and each
new result is written at its lower-cased provider-name key. -/
theorem claim_C2_merge_selective_overlay (prior : ResultsMap)
    (results : List BenchmarkResult) (now : String) (k : String)
    (hk : k ∉ results.map (fun r => toLowerStr r.providerName)) :
    mapGet (saveResults (some prior) results now) k = mapGet prior k
    ∧ ((results.map (fun r => toLowerStr r.providerName)).Nodup →
        ∀ r ∈ results,
          mapGet (saveResults (some prior) results now) (toLowerStr r.providerName)
            = some (serializeResult now r)) := by
  constructor
  · exact mergeResults_frame prior results now k hk
  · intro hnd r hr
    exact mergeResults_update prior results now hnd r hr

/-- C2 witness: merging a `"Bifrost"` run into a document holding a
`"litellm"` entry leaves the `"litellm"` entry identical and writes
the `"bifrost"` entry. -/
theorem claim_C2_merge_selective_overlay_witness :
    mapGet (saveResults (some [("litellm", litellmPrior)]) [bifrostRun]
        "2025-06-01T00:00:00Z") "litellm"
      = mapGet [("litellm", litellmPrior)] "litellm"
    ∧ mapGet (saveResults (some [("litellm", litellmPrior)]) [bifrostRun]
        "2025-06-01T00:00:00Z") (toLowerStr bifrostRun.providerName)
      = some (serializeResult "2025-06-01T00:00:00Z" bifrostRun) := by
  have h := claim_C2_merge_selective_overlay [("litellm", litellmPrior)] [bifrostRun]
    "2025-06-01T00:00:00Z" "litellm" (by decide)
  exact ⟨h.1, h.2 (by decide) bifrostRun (List.mem_singleton.mpr rfl)⟩

/-! ### Helper lemmas: the provider filter -/

theorem firstMatch_found (ps : List Provider) (name : String)
    (h : ∃ p ∈ ps, eqFold p.name name = true) :
    ∃ p, firstMatch ps name = [p] ∧ p ∈ ps ∧ eqFold p.name name = true := by
  induction ps with
  | nil => simp at h
  | cons a rest ih =>
    by_cases ha : eqFold a.name name = true
    · exact ⟨a, by simp [firstMatch, ha], List.mem_cons_self a rest, ha⟩
    · obtain ⟨p, hp, hpe⟩ := h
      rcases List.mem_cons.mp hp with rfl | hp'
      · exact absurd hpe ha
      · obtain ⟨q, hq1, hq2, hq3⟩ := ih ⟨p, hp', hpe⟩
        exact ⟨q, by simp [firstMatch, ha, hq1], List.mem_cons_of_mem _ hq2, hq3⟩

theorem firstMatch_none (ps : List Provider) (name : String)
    (h : ∀ p ∈ ps, eqFold p.name name = false) :
    firstMatch ps name = [] := by
  induction ps with
  | nil => rfl
  | cons a rest ih =>
    have ha := h a (List.mem_cons_self a rest)
    simp [firstMatch, ha, ih (fun p hp => h p (List.mem_cons_of_mem _ hp))]

/-! ### Claim theorems: provider filter (C4) and targeter headers (C9) -/

/-- C4: for a non-empty requested provider name, if some registered
provider matches it case-insensitively then the run list is exactly
the one (first) matching provider; if none matches, the program
terminates fatally with an error carrying the requested name and the
enumeration of the valid (lower-cased) provider names. -/
theorem claim_C4_provider_filter (ps : List Provider) (name : String) (hname : name ≠ "") :
    ((∃ p ∈ ps, eqFold p.name name = true) →
      ∃ p, filterProviders ps name = Except.ok [p] ∧ p ∈ ps ∧ eqFold p.name name = true)
    ∧ ((∀ p ∈ ps, eqFold p.name name = false) →
      filterProviders ps name = Except.error (name, getProviderNames ps)) := by
  constructor
  · intro h
    obtain ⟨p, h1, h2, h3⟩ := firstMatch_found ps name h
    exact ⟨p, by simp [filterProviders, hname, h1], h2, h3⟩
  · intro h
    simp [filterProviders, hname, firstMatch_none ps name h]

/-- C4 witness: on the registry built from a populated environment,
requesting `"BIFROST"` yields exactly the Bifrost provider, and
requesting `"Portkey"` yields the fatal error enumerating the valid
names. -/
theorem claim_C4_provider_filter_witness :
    (∃ p, filterProviders sampleProviders "BIFROST" = Except.ok [p] ∧ p ∈ sampleProviders
        ∧ eqFold p.name "BIFROST" = true)
    ∧ filterProviders sampleProviders "Portkey"
        = Except.error ("Portkey", getProviderNames sampleProviders) := by
  constructor
  · exact (claim_C4_provider_filter sampleProviders "BIFROST" (by decide)).1 (by decide)
  · exact (claim_C4_provider_filter sampleProviders "Portkey" (by decide)).2 (by decide)

/-- C9: for every provider constructed by the current registry, the
targeter's credential-injection branch is unreachable: `makeRequest`
always succeeds — in particular it never returns the
`"OPENAI_API_KEY is not set"` error, whatever the environment — and
the produced request carries exactly the single header
`Content-Type: application/json` (no `x-portkey-config`), because the
branch triggers only on the exact name `"Portkey"`, which the registry
never produces. -/
theorem claim_C9_portkey_branch_unreachable (env0 : String → String) (big : Bool)
    (model suffix : String) (p : Provider)
    (hp : p ∈ (initializeProviders (some env0) big model suffix).toOption.getD [])
    (env : String → String) (requestCounter : Nat) (now : String) :
    ∃ t, makeRequest p env requestCounter now = Except.ok t
      ∧ t.header = [("Content-Type", "application/json")] := by
  have hmem : p.name ∈ ["Bifrost", "Litellm", "Helicone"] := by
    have h2 := List.mem_map_of_mem Provider.name hp
    simpa [initializeProviders, Except.toOption] using h2
  have hname : p.name ≠ "Portkey" := fun hP => absurd (hP ▸ hmem) (by decide)
  refine ⟨{ method := "POST"
            url := p.endpoint
            body := { p.payload with
              content := substitutePlaceholders p.payload.content requestCounter now }
            header := [("Content-Type", "application/json")] }, ?_, rfl⟩
  simp [makeRequest, hname]

/-- C9 witness: the Bifrost registry entry, with an environment in
which `OPENAI_API_KEY` is unset. -/
theorem claim_C9_portkey_branch_unreachable_witness :
    ∃ t, makeRequest sampleProvider (fun _ => "") 1 "2025-01-01T00:00:00Z" = Except.ok t
      ∧ t.header = [("Content-Type", "application/json")] :=
  claim_C9_portkey_branch_unreachable sampleEnv false "gpt-4o-mini" "v1" sampleProvider
    (by decide) (fun _ => "") 1 "2025-01-01T00:00:00Z"

end BifrostBench
